import Mathlib

/-!
Shallow embedding of the lyrics-manager core: the range model of
src/components/section-tagger.tsx, the arrangement model of
src/components/song-structure-builder.tsx, the song aggregate store of
src/lib/stores/song-store.ts, the lyrics save path of
src/components/lyrics-editor.tsx and the title validation of
src/components/song-metadata-form.tsx.  Offsets are character offsets
into the lyrics buffer and are modelled as natural numbers; optional or
nullable JavaScript fields are modelled as Option, with the empty list
standing for an absent artists array.
-/

namespace LyricsApp

/-- Model of the Section interface of section-tagger.tsx: a labeled text
range with a start offset, an end offset, a structural type and an
optional performer list (absent modelled as the empty list). -/
structure Section where
  start : Nat
  «end» : Nat
  type : String
  artists : List String
deriving Repr, DecidableEq

/-- Result of checkOverlap in section-tagger.tsx: the hasOverlap flag and
the user-facing message. -/
structure OverlapResult where
  hasOverlap : Bool
  message : String
deriving Repr, DecidableEq

/-- Capitalisation used when reporting the conflicting type, from
section.type.charAt(0).toUpperCase() + section.type.slice(1). -/
def capitalizeType (t : String) : String :=
  (t.take 1).toUpper ++ t.drop 1

/-- Overlap condition tested for one existing section inside the for
loop of checkOverlap (section-tagger.tsx lines 67 to 71), verbatim:
(start <= section.start && end > section.start) ||
(start >= section.start && start < section.end) ||
(start <= section.start && end >= section.end). -/
def sectionOverlapCond (start «end» : Nat) (sec : Section) : Bool :=
  (decide (start ≤ sec.start) && decide («end» > sec.start)) ||
  (decide (start ≥ sec.start) && decide (start < sec.«end»)) ||
  (decide (start ≤ sec.start) && decide («end» ≥ sec.«end»))

/-- Model of checkOverlap (section-tagger.tsx lines 64 to 80): walk the
sections in array order and return on the first section whose overlap
condition fires, reporting its type in the message. -/
def checkOverlap (sections : List Section) (start «end» : Nat) : OverlapResult :=
  match sections with
  | [] => ⟨false, ""⟩
  | sec :: rest =>
    if sectionOverlapCond start «end» sec then
      ⟨true, "Selection overlaps with an existing " ++ capitalizeType sec.type ++
        " section. Please select a different range."⟩
    else checkOverlap rest start «end»

/-- Model of addSection (section-tagger.tsx lines 120 to 145): reject
when there is no selection, the selection is empty or inverted, or the
overlap flag from checkOverlap is set; otherwise append the new section
with an empty artists list. -/
def addSection (sections : List Section) (selectionRange : Option (Nat × Nat))
    (selectedType : String) : List Section :=
  match selectionRange with
  | none => sections
  | some (start, «end») =>
    if start ≥ «end» || (checkOverlap sections start «end»).hasOverlap then sections
    else sections ++ [⟨start, «end», selectedType, []⟩]

/-- Model of the sortedSections memo (section-tagger.tsx lines 59 to 61):
a stable sort of the sections by start offset, as performed by the
JavaScript Array.prototype.sort with comparator a.start - b.start. -/
def sortedSections (sections : List Section) : List Section :=
  sections.mergeSort (fun a b => decide (a.start ≤ b.start))

/-- Matching predicate used by removeSection and toggleArtistForSection:
equality on the (start, end, type) triple. -/
def sectionMatches (s target : Section) : Bool :=
  s.start == target.start && s.«end» == target.«end» && s.type == target.type

/-- Filter step of removeSection (section-tagger.tsx lines 149 to 156):
keep exactly the sections that do not match the target on the
(start, end, type) triple. -/
def removeSectionTarget (sections : List Section) (target : Section) : List Section :=
  sections.filter (fun s => !(sectionMatches s target))

/-- Model of removeSection (section-tagger.tsx lines 147 to 158): the
target is looked up at the given index of the sorted view, and every
section matching its (start, end, type) triple is filtered out. -/
def removeSection (sections : List Section) (index : Nat) : List Section :=
  match (sortedSections sections)[index]? with
  | none => sections
  | some target => removeSectionTarget sections target

/-- Pairwise non-overlap of a list of ranges, with the half-open overlap
predicate of the specification: ranges a and b overlap iff
a.start < b.end and b.start < a.end. -/
def NonOverlapping (sections : List Section) : Prop :=
  sections.Pairwise (fun a b => ¬(a.start < b.«end» ∧ b.start < a.«end»))

/-- States of one tag set reachable from an initial list by accepted
addSection calls: each step appends a candidate with start < end that
checkOverlap reported as non-overlapping against the current list. -/
inductive TagReachable : List Section → List Section → Prop
  | refl (sections : List Section) : TagReachable sections sections
  | step (init cur : List Section) (start «end» : Nat) (type : String) :
      TagReachable init cur →
      start < «end» →
      (checkOverlap cur start «end»).hasOverlap = false →
      TagReachable init (cur ++ [⟨start, «end», type, []⟩])

/-- Model of an arrangement entry stored on a song (song-store.ts): a
type, the source offsets, and an optional performer list (absent
modelled as the empty list). -/
structure ArrangementEntry where
  type : String
  start : Nat
  «end» : Nat
  artists : List String
deriving Repr, DecidableEq

/-- Model of the SongVersion interface of song-store.ts: an immutable
snapshot of lyrics, sections and optionally an arrangement. -/
structure SongVersion where
  id : String
  timestamp : String
  lyrics : String
  sections : List Section
  arrangement : Option (List ArrangementEntry)
deriving Repr, DecidableEq

/-- Model of the Song interface of song-store.ts.  The optional
arrangement and the nullable previousArrangement are both modelled as
Option, none standing for absent or null. -/
structure Song where
  id : String
  title : String
  lyrics : String
  sections : List Section
  arrangement : Option (List ArrangementEntry)
  previousArrangement : Option (List ArrangementEntry)
  versions : List SongVersion
  categories : List String
  featuredArtists : List String
  createdAt : String
  updatedAt : String
deriving Repr, DecidableEq

/-- Outcome of a store mutation, distinguishing success, the song id
not being found, and the missing previous arrangement signalled by
restorePreviousArrangement. -/
inductive StoreResult where
  | ok | notFound | noPrevious
deriving Repr, DecidableEq

/-- Model of addSong (song-store.ts lines 75 to 81): append the song at
the end of the collection. -/
def addSong (songs : List Song) (song : Song) : List Song :=
  songs ++ [song]

/-- Model of updateSong (song-store.ts lines 83 to 96): full-record
replace of every song whose id equals the id of the updated record. -/
def updateSong (songs : List Song) (updatedSong : Song) : List Song :=
  songs.map (fun s => if s.id == updatedSong.id then updatedSong else s)

/-- Model of removeSong (song-store.ts lines 98 to 102): hard delete of
every song with the given id. -/
def removeSong (songs : List Song) (id : String) : List Song :=
  songs.filter (fun s => s.id != id)

/-- Model of saveSongArrangement (song-store.ts lines 104 to 145): find
the song by id (first match); when absent return unchanged with a
not-found signal; otherwise copy the current arrangement into
previousArrangement, write the new arrangement, append one new version
capturing the current lyrics, the current sections and the new
arrangement, stamp updatedAt, and replace the song in the collection.
The clock readings Date.now().toString() and new Date().toISOString()
are passed in as the versionId and now parameters. -/
def saveSongArrangement (songs : List Song) (id : String)
    (arrangement : List ArrangementEntry) (now versionId : String) :
    List Song × StoreResult :=
  match songs.find? (fun s => s.id == id) with
  | none => (songs, .notFound)
  | some song =>
    let updatedSong : Song :=
      { song with
        previousArrangement := song.arrangement
        arrangement := some arrangement
        updatedAt := now
        versions := song.versions ++
          [{ id := versionId, timestamp := now, lyrics := song.lyrics,
             sections := song.sections, arrangement := some arrangement }] }
    (songs.map (fun s => if s.id == id then updatedSong else s), .ok)

/-- Model of restorePreviousArrangement (song-store.ts lines 147 to
182): find the song by id; fail with a not-found signal when absent;
fail with the cannot-undo signal when previousArrangement is null;
otherwise restore the arrangement from it, clear previousArrangement to
null, stamp updatedAt and replace the song in the collection. -/
def restorePreviousArrangement (songs : List Song) (id : String) (now : String) :
    List Song × StoreResult :=
  match songs.find? (fun s => s.id == id) with
  | none => (songs, .notFound)
  | some song =>
    match song.previousArrangement with
    | none => (songs, .noPrevious)
    | some prev =>
      let updatedSong : Song :=
        { song with
          arrangement := some prev
          previousArrangement := none
          updatedAt := now }
      (songs.map (fun s => if s.id == id then updatedSong else s), .ok)

/-- Model of the existing-song branch of handleSave in lyrics-editor.tsx
(lines 152 to 177): append one new version capturing the edited lyrics
and sections, write them onto the song and stamp updatedAt. -/
def handleSaveExisting (song : Song) (lyrics : String) (sections : List Section)
    (now versionId : String) : Song :=
  { song with
    lyrics := lyrics
    sections := sections
    versions := song.versions ++
      [{ id := versionId, timestamp := now, lyrics := lyrics,
         sections := sections, arrangement := none }]
    updatedAt := now }

/-- Model of handleDeleteSong in the song list component: look the song
up before removal, remove it from the store, and hand the removed
record back (stored in a ref) so that undo can restore it. -/
def handleDeleteSong (songs : List Song) (id : String) : List Song × Option Song :=
  match songs.find? (fun s => s.id == id) with
  | none => (songs, none)
  | some songToDelete => (removeSong songs id, some songToDelete)

/-- Model of handleUndoDelete in the song list component: when a deleted
record is buffered, re-add it through addSong, which appends at the
end. -/
def handleUndoDelete (songs : List Song) (deletedSong : Option Song) : List Song :=
  match deletedSong with
  | none => songs
  | some s => addSong songs s

/-- Concrete sample song with one stored version, used by closed
instances of the version ledger claims. -/
def sampleSong : Song :=
  { id := "s1", title := "Echo", lyrics := "la", sections := [],
    arrangement := some [⟨"verse", 0, 2, []⟩], previousArrangement := none,
    versions := [{ id := "v0", timestamp := "t0", lyrics := "", sections := [],
                   arrangement := none }],
    categories := [], featuredArtists := [], createdAt := "c", updatedAt := "u" }

/-- Model of the ArrangedSection type of song-structure-builder.tsx: a
generated identity, the section type, the cached content snippet, the
source offsets, and the loosely typed artists field read by the save
path (absent modelled as the empty list). -/
structure ArrangedSection where
  id : String
  type : String
  content : String
  originalStart : Nat
  originalEnd : Nat
  artists : List String
deriving Repr, DecidableEq

/-- Model of JavaScript String.prototype.substring with two arguments on
natural indices: clamp both to the string length and swap them when the
first exceeds the second. -/
def jsSubstring (s : String) (a b : Nat) : String :=
  (s.take (max (min a s.length) (min b s.length))).drop (min (min a s.length) (min b s.length))

/-- Defaulting of the stored type, from the expression
section.type || "unknown": the empty string is falsy. -/
def sectionTypeOrUnknown (t : String) : String :=
  if t = "" then "unknown" else t

/-- One ArrangedSection built from a stored arrangement entry by the
initialization effect of song-structure-builder.tsx (lines 71 to 83). -/
def arrangedFromEntry (lyrics now : String) (index : Nat) (e : ArrangementEntry) :
    ArrangedSection :=
  { id := "section-" ++ toString index ++ "-" ++ now
    type := sectionTypeOrUnknown e.type
    content := jsSubstring lyrics e.start e.«end»
    originalStart := e.start
    originalEnd := e.«end»
    artists := [] }

/-- One ArrangedSection built from a tagged section by the
initialization effect of song-structure-builder.tsx (lines 85 to 96). -/
def arrangedFromSection (lyrics now : String) (index : Nat) (sec : Section) :
    ArrangedSection :=
  { id := "section-" ++ toString index ++ "-" ++ now
    type := sectionTypeOrUnknown sec.type
    content := jsSubstring lyrics sec.start sec.«end»
    originalStart := sec.start
    originalEnd := sec.«end»
    artists := [] }

/-- Index-aware map over the arrangement entries, modelling
song.arrangement.map((section, index) => ...). -/
def buildEntryList (lyrics now : String) : Nat → List ArrangementEntry → List ArrangedSection
  | _, [] => []
  | i, e :: rest => arrangedFromEntry lyrics now i e :: buildEntryList lyrics now (i + 1) rest

/-- Index-aware map over the tagged sections, modelling
song.sections.map((section, index) => ...). -/
def buildSectionList (lyrics now : String) : Nat → List Section → List ArrangedSection
  | _, [] => []
  | i, sec :: rest => arrangedFromSection lyrics now i sec :: buildSectionList lyrics now (i + 1) rest

/-- Fallback branch of the initialization effect: map the tagged
sections and sort them by source start with the stable JavaScript array
sort, modelled by the stable merge sort. -/
def buildFromSections (song : Song) (now : String) : List ArrangedSection :=
  if song.sections.length > 0 then
    (buildSectionList song.lyrics now 0 song.sections).mergeSort
      (fun a b => decide (a.originalStart ≤ b.originalStart))
  else []

/-- Model of the arrangement initialization effect of
song-structure-builder.tsx (lines 64 to 112), named buildArrangement by
the specification: use the stored arrangement in stored order when it
is present and non-empty, otherwise fall back to the tagged sections
sorted by start.  The Date.now() reading embedded in the generated ids
is passed in as the now parameter. -/
def buildArrangement (song : Song) (now : String) : List ArrangedSection :=
  match song.arrangement with
  | some arr =>
    if arr.length > 0 then buildEntryList song.lyrics now 0 arr
    else buildFromSections song now
  | none => buildFromSections song now

/-- Identity-free projection of an ArrangedSection, separating the data
carried over from the song from the generated id. -/
def arrangedData (a : ArrangedSection) : String × String × Nat × Nat × List String :=
  (a.type, a.content, a.originalStart, a.originalEnd, a.artists)

/-- Positional comparison used by the unsaved-changes effect of
song-structure-builder.tsx (lines 130 to 137): some pair differs in
type, originalStart or originalEnd. -/
def arrangementDiffers (current lastSaved : List ArrangedSection) : Bool :=
  (current.zip lastSaved).any (fun p =>
    p.1.type != p.2.type || p.1.originalStart != p.2.originalStart ||
    p.1.originalEnd != p.2.originalEnd)

/-- Model of the unsaved-changes effect of song-structure-builder.tsx
(lines 115 to 141): the flag is recomputed only when both arrays are
non-empty; when either is empty the effect leaves the previous flag
value in place. -/
def hasUnsavedChangesEffect (current lastSaved : List ArrangedSection) (prior : Bool) : Bool :=
  if lastSaved.length > 0 ∧ current.length > 0 then
    if lastSaved.length ≠ current.length then true
    else arrangementDiffers current lastSaved
  else prior

/-- Predicate spelled out by the specification for hasUnsavedChanges:
true iff the lengths differ or some positional pair differs in type,
sourceStart or sourceEnd.  Stated from the words of the specification
for comparison with the code model above. -/
def specUnsavedChanges (current lastSaved : List ArrangedSection) : Bool :=
  current.length != lastSaved.length ||
  (current.zip lastSaved).any (fun p =>
    p.1.type != p.2.type || p.1.originalStart != p.2.originalStart ||
    p.1.originalEnd != p.2.originalEnd)

/-- Validation outcome of the title field of the song metadata form. -/
inductive TitleError where
  | emptyTitle | duplicateTitle
deriving Repr, DecidableEq

/-- Model of JavaScript String.prototype.toLowerCase as used by the
title comparison: lowercase the string character by character. -/
def jsToLowerCase (s : String) : String :=
  ⟨s.data.map Char.toLower⟩

/-- Model of the title checks of formSchema (song-metadata-form.tsx
lines 53 to 71) on the new-song path: the min-length-one rule first and
then the refine rule rejecting a case-insensitive title match against
any existing song, following the zod semantics in which the refinement
runs only when the base string checks pass. -/
def validateNewSongTitle (songs : List Song) (title : String) : Option TitleError :=
  if title.length < 1 then some .emptyTitle
  else if songs.any (fun s => jsToLowerCase s.title == jsToLowerCase title) then some .duplicateTitle
  else none

/-- Model of a new-song creation attempt through the metadata form:
onSubmit (song-metadata-form.tsx lines 221 to 253) runs only when the
schema validation passes, so a failed validation surfaces the error and
leaves the store unchanged; on success the new record is appended via
addSong. -/
def submitNewSong (songs : List Song) (title : String)
    (songCategories featuredArtists : List String) (newId versionId now : String) :
    List Song × Option TitleError :=
  match validateNewSongTitle songs title with
  | some e => (songs, some e)
  | none =>
    (addSong songs
      { id := newId, title := title, lyrics := "", sections := [],
        arrangement := none, previousArrangement := none,
        versions := [{ id := versionId, timestamp := now, lyrics := "",
                       sections := [], arrangement := none }],
        categories := songCategories, featuredArtists := featuredArtists,
        createdAt := now, updatedAt := now }, none)

/-- Comparator on identity-free projections induced by the originalStart
comparator, used to transport the sort across the projection. -/
def arrangedDataLE (x y : String × String × Nat × Nat × List String) : Bool :=
  decide (x.2.2.1 ≤ y.2.2.1)

/-- Concrete song whose stored arrangement is present and non-empty,
used by the closed instance of C6. -/
def sampleArrangedSong : Song :=
  { id := "s2", title := "Built", lyrics := "abcdef", sections := [⟨0, 3, "verse", []⟩],
    arrangement := some [⟨"chorus", 2, 5, []⟩], previousArrangement := none,
    versions := [], categories := [], featuredArtists := [], createdAt := "", updatedAt := "" }

/-- Concrete song without a stored arrangement whose tagged sections are
out of order, used by the closed instance of C6. -/
def sampleSectionsSong : Song :=
  { id := "s3", title := "Fallback", lyrics := "abcdef",
    sections := [⟨3, 6, "chorus", []⟩, ⟨0, 3, "verse", []⟩],
    arrangement := none, previousArrangement := none,
    versions := [], categories := [], featuredArtists := [], createdAt := "", updatedAt := "" }

lemma checkOverlap_hasOverlap_iff (sections : List Section) (start «end» : Nat) :
    (checkOverlap sections start «end»).hasOverlap = true ↔
      ∃ sec ∈ sections, sectionOverlapCond start «end» sec = true := by
  induction sections with
  | nil => simp [checkOverlap]
  | cons a rest ih =>
    by_cases hc : sectionOverlapCond start «end» a
    · rw [checkOverlap, if_pos hc]
      simp only [true_iff]
      exact ⟨a, by simp, hc⟩
    · rw [checkOverlap, if_neg hc]
      rw [ih]
      constructor
      · rintro ⟨sec, hsec, hcond⟩; exact ⟨sec, by simp [hsec], hcond⟩
      · rintro ⟨sec, hsec, hcond⟩
        rcases List.mem_cons.mp hsec with rfl | hsec
        · exact absurd hcond (by simpa using hc)
        · exact ⟨sec, hsec, hcond⟩

lemma sectionOverlapCond_false_no_overlap (start «end» : Nat) (sec : Section)
    (h : sectionOverlapCond start «end» sec = false) :
    ¬(start < sec.«end» ∧ sec.start < «end») := by
  simp only [sectionOverlapCond, Bool.or_eq_false_iff, Bool.and_eq_false_iff,
    decide_eq_false_iff_not, not_le, not_lt] at h
  omega

lemma standard_overlap_cond (start «end» : Nat) (sec : Section)
    (hv : sec.start < sec.«end») (hc : start < «end»)
    (h : sectionOverlapCond start «end» sec = true) :
    start < sec.«end» ∧ sec.start < «end» := by
  simp only [sectionOverlapCond, Bool.or_eq_true, Bool.and_eq_true,
    decide_eq_true_eq] at h
  omega

lemma cond_of_standard_overlap (start «end» : Nat) (sec : Section)
    (h : start < sec.«end» ∧ sec.start < «end») :
    sectionOverlapCond start «end» sec = true := by
  simp only [sectionOverlapCond, Bool.or_eq_true, Bool.and_eq_true,
    decide_eq_true_eq]
  omega

/-- C1: starting from any pairwise non-overlapping list of ranges and
performing any sequence of addSection appends, each accepted only after
checkOverlap reported no overlap for a candidate with start < end, the
resulting list is pairwise non-overlapping: every pair of distinct
ranges satisfies NOT(s1 < e2 AND s2 < e1). -/
theorem c1_nonoverlap_invariant (init final : List Section)
    (hinit : NonOverlapping init) (hreach : TagReachable init final) :
    NonOverlapping final := by
  induction hreach with
  | refl => exact hinit
  | step cur start «end» type _ hlt hchk ih =>
    unfold NonOverlapping at ih ⊢
    rw [List.pairwise_append]
    refine ⟨ih, List.pairwise_singleton _ _, ?_⟩
    intro a ha b hb
    simp only [List.mem_singleton] at hb
    subst hb
    have hcond : sectionOverlapCond start «end» a = false := by
      by_contra hne
      have : (checkOverlap cur start «end»).hasOverlap = true :=
        (checkOverlap_hasOverlap_iff cur start «end»).mpr
          ⟨a, ha, by simpa using hne⟩
      rw [hchk] at this
      exact Bool.false_ne_true this
    have hno := sectionOverlapCond_false_no_overlap start «end» a hcond
    simp only [not_and, not_lt] at hno ⊢
    intro h1
    omega

/-- Closed instance for C1: tagging [0,4) as verse and then [4,8) as
chorus from the empty tag set yields a pairwise non-overlapping list. -/
theorem c1_nonoverlap_invariant_witness :
    NonOverlapping [⟨0, 4, "verse", []⟩, ⟨4, 8, "chorus", []⟩] := by
  have h1 : TagReachable [] [⟨0, 4, "verse", []⟩] :=
    TagReachable.step [] [] 0 4 "verse" (TagReachable.refl []) (by decide) (by rfl)
  have h2 : TagReachable [] [⟨0, 4, "verse", []⟩, ⟨4, 8, "chorus", []⟩] :=
    TagReachable.step [] [⟨0, 4, "verse", []⟩] 4 8 "chorus" h1 (by decide) (by rfl)
  exact c1_nonoverlap_invariant [] _ (List.Pairwise.nil) h2

/-- C2: over ranges satisfying the model invariant start < end, and for
a candidate with start < end, checkOverlap reports an overlap exactly
when some existing range [s,e) satisfies start < e and s < end; in
particular a candidate that only touches boundaries is reported as not
overlapping. -/
theorem c2_overlap_predicate (sections : List Section) (start «end» : Nat)
    (hvalid : ∀ sec ∈ sections, sec.start < sec.«end») (hcand : start < «end») :
    ((checkOverlap sections start «end»).hasOverlap = true ↔
      ∃ sec ∈ sections, start < sec.«end» ∧ sec.start < «end»)
    ∧ ((∀ sec ∈ sections, sec.«end» ≤ start ∨ «end» ≤ sec.start) →
      (checkOverlap sections start «end»).hasOverlap = false) := by
  have hiff : (checkOverlap sections start «end»).hasOverlap = true ↔
      ∃ sec ∈ sections, start < sec.«end» ∧ sec.start < «end» := by
    rw [checkOverlap_hasOverlap_iff]
    constructor
    · rintro ⟨sec, hsec, hcond⟩
      exact ⟨sec, hsec, standard_overlap_cond start «end» sec (hvalid sec hsec) hcand hcond⟩
    · rintro ⟨sec, hsec, hov⟩
      exact ⟨sec, hsec, cond_of_standard_overlap start «end» sec hov⟩
  refine ⟨hiff, ?_⟩
  intro htouch
  by_contra hne
  have htrue : (checkOverlap sections start «end»).hasOverlap = true := by
    cases h : (checkOverlap sections start «end»).hasOverlap
    · exact absurd h hne
    · rfl
  obtain ⟨sec, hsec, hov⟩ := hiff.mp htrue
  have := htouch sec hsec
  omega

/-- Closed instance for C2 at the worked example of the specification:
against existing range [10,20), candidate [15,25) overlaps, candidate
[20,30) only touches and does not, candidate [5,10) does not, and
candidate [5,25) fully containing the range overlaps. -/
theorem c2_overlap_predicate_witness :
    (checkOverlap [⟨10, 20, "verse", []⟩] 15 25).hasOverlap = true
    ∧ (checkOverlap [⟨10, 20, "verse", []⟩] 20 30).hasOverlap = false
    ∧ (checkOverlap [⟨10, 20, "verse", []⟩] 5 10).hasOverlap = false
    ∧ (checkOverlap [⟨10, 20, "verse", []⟩] 5 25).hasOverlap = true := by
  refine ⟨?_, ?_, ?_, ?_⟩
  · exact (c2_overlap_predicate [⟨10, 20, "verse", []⟩] 15 25 (by decide) (by decide)).1.mpr
      ⟨⟨10, 20, "verse", []⟩, by simp, by decide⟩
  · exact (c2_overlap_predicate [⟨10, 20, "verse", []⟩] 20 30 (by decide) (by decide)).2
      (by intro sec hsec; simp at hsec; subst hsec; left; decide)
  · exact (c2_overlap_predicate [⟨10, 20, "verse", []⟩] 5 10 (by decide) (by decide)).2
      (by intro sec hsec; simp at hsec; subst hsec; right; decide)
  · exact (c2_overlap_predicate [⟨10, 20, "verse", []⟩] 5 25 (by decide) (by decide)).1.mpr
      ⟨⟨10, 20, "verse", []⟩, by simp, by decide⟩

lemma find?_map_update (songs : List Song) (id : String) (u : Song)
    (hu : u.id = id)
    (hfound : (songs.find? (fun s => s.id == id)).isSome) :
    (songs.map (fun s => if s.id == id then u else s)).find? (fun s => s.id == id)
      = some u := by
  induction songs with
  | nil => simp at hfound
  | cons a rest ih =>
    by_cases ha : (a.id == id) = true
    · simp only [List.map_cons, if_pos ha]
      rw [List.find?_cons_of_pos]
      simp [hu]
    · simp only [List.map_cons, if_neg ha]
      rw [List.find?_cons_of_neg _ (by simpa using ha)]
      apply ih
      rw [List.find?_cons_of_neg _ (by simpa using ha)] at hfound
      exact hfound

lemma filter_ne_map_update (songs : List Song) (id : String) (u : Song)
    (hu : u.id = id) :
    (songs.map (fun s => if s.id == id then u else s)).filter (fun s => s.id != id)
      = songs.filter (fun s => s.id != id) := by
  induction songs with
  | nil => simp
  | cons a rest ih =>
    by_cases ha : (a.id == id) = true
    · simp only [List.map_cons, if_pos ha, List.filter_cons]
      have hu2 : (u.id != id) = false := by simp [hu]
      have ha2 : (a.id != id) = false := by simpa using ha
      rw [hu2, ha2]
      simpa using ih
    · simp only [List.map_cons, if_neg ha, List.filter_cons]
      have ha2 : (a.id != id) = true := by simpa using ha
      rw [ha2]
      simpa using ih

/-- C3: saving arrangement A2 on a song whose arrangement is A1 moves A1
into previousArrangement and installs A2; undoing restores A1 and
clears previousArrangement to null; a second consecutive undo fails
with the cannot-undo signal and leaves the store unchanged. -/
theorem c3_arrangement_undo_roundtrip (songs : List Song) (id : String) (S : Song)
    (A1 A2 : List ArrangementEntry) (t1 v1 t2 t3 : String)
    (hfind : songs.find? (fun s => s.id == id) = some S)
    (harr : S.arrangement = some A1) :
    ∃ S1 S2,
      (saveSongArrangement songs id A2 t1 v1).1.find? (fun s => s.id == id) = some S1
      ∧ S1.arrangement = some A2
      ∧ S1.previousArrangement = some A1
      ∧ (restorePreviousArrangement (saveSongArrangement songs id A2 t1 v1).1 id t2).2 = .ok
      ∧ (restorePreviousArrangement (saveSongArrangement songs id A2 t1 v1).1 id t2).1.find?
          (fun s => s.id == id) = some S2
      ∧ S2.arrangement = some A1
      ∧ S2.previousArrangement = none
      ∧ restorePreviousArrangement
          (restorePreviousArrangement (saveSongArrangement songs id A2 t1 v1).1 id t2).1 id t3
        = ((restorePreviousArrangement (saveSongArrangement songs id A2 t1 v1).1 id t2).1,
           .noPrevious) := by
  have hSid : S.id = id := by
    have := List.find?_some hfind
    simpa using this
  set S1 : Song :=
    { S with
      previousArrangement := S.arrangement
      arrangement := some A2
      updatedAt := t1
      versions := S.versions ++
        [{ id := v1, timestamp := t1, lyrics := S.lyrics,
           sections := S.sections, arrangement := some A2 }] } with hS1
  have hsave : saveSongArrangement songs id A2 t1 v1
      = (songs.map (fun s => if s.id == id then S1 else s), .ok) := by
    rw [saveSongArrangement, hfind]
  have hfind1 : (saveSongArrangement songs id A2 t1 v1).1.find? (fun s => s.id == id)
      = some S1 := by
    rw [hsave]
    exact find?_map_update songs id S1 (by simp [hS1, hSid]) (by rw [hfind]; rfl)
  set st1 := (saveSongArrangement songs id A2 t1 v1).1 with hst1
  set S2 : Song :=
    { S1 with
      arrangement := some A1
      previousArrangement := none
      updatedAt := t2 } with hS2
  have hprev1 : S1.previousArrangement = some A1 := by
    simp [hS1, harr]
  have hrest : restorePreviousArrangement st1 id t2
      = (st1.map (fun s => if s.id == id then S2 else s), .ok) := by
    simp only [restorePreviousArrangement, hfind1, hprev1, harr]
  have hfind2 : (restorePreviousArrangement st1 id t2).1.find? (fun s => s.id == id)
      = some S2 := by
    rw [hrest]
    exact find?_map_update st1 id S2 (by simp [hS2, hS1, hSid]) (by rw [hfind1]; rfl)
  refine ⟨S1, S2, hfind1, by simp [hS1], hprev1, by rw [hrest], hfind2, by simp [hS2],
    by simp [hS2], ?_⟩
  have hprev2 : S2.previousArrangement = none := by simp [hS2]
  set st2 := (restorePreviousArrangement st1 id t2).1 with hst2
  simp only [restorePreviousArrangement, hfind2, hprev2]

/-- Closed instance for C3 on a one-song store with a present
arrangement. -/
theorem c3_arrangement_undo_roundtrip_witness :
    ∃ S1 S2,
      (saveSongArrangement
        [{ id := "s1", title := "Echo", lyrics := "la", sections := [],
           arrangement := some [⟨"verse", 0, 2, []⟩], previousArrangement := none,
           versions := [], categories := [], featuredArtists := [],
           createdAt := "c", updatedAt := "u" }] "s1" [⟨"chorus", 0, 2, []⟩] "t1" "v1").1.find?
        (fun s => s.id == "s1") = some S1
      ∧ S1.arrangement = some [⟨"chorus", 0, 2, []⟩]
      ∧ S1.previousArrangement = some [⟨"verse", 0, 2, []⟩]
      ∧ (restorePreviousArrangement
          (saveSongArrangement
            [{ id := "s1", title := "Echo", lyrics := "la", sections := [],
               arrangement := some [⟨"verse", 0, 2, []⟩], previousArrangement := none,
               versions := [], categories := [], featuredArtists := [],
               createdAt := "c", updatedAt := "u" }] "s1" [⟨"chorus", 0, 2, []⟩] "t1" "v1").1
          "s1" "t2").2 = .ok
      ∧ (restorePreviousArrangement
          (saveSongArrangement
            [{ id := "s1", title := "Echo", lyrics := "la", sections := [],
               arrangement := some [⟨"verse", 0, 2, []⟩], previousArrangement := none,
               versions := [], categories := [], featuredArtists := [],
               createdAt := "c", updatedAt := "u" }] "s1" [⟨"chorus", 0, 2, []⟩] "t1" "v1").1
          "s1" "t2").1.find? (fun s => s.id == "s1") = some S2
      ∧ S2.arrangement = some [⟨"verse", 0, 2, []⟩]
      ∧ S2.previousArrangement = none
      ∧ restorePreviousArrangement
          (restorePreviousArrangement
            (saveSongArrangement
              [{ id := "s1", title := "Echo", lyrics := "la", sections := [],
                 arrangement := some [⟨"verse", 0, 2, []⟩], previousArrangement := none,
                 versions := [], categories := [], featuredArtists := [],
                 createdAt := "c", updatedAt := "u" }] "s1" [⟨"chorus", 0, 2, []⟩] "t1" "v1").1
            "s1" "t2").1 "s1" "t3"
        = ((restorePreviousArrangement
            (saveSongArrangement
              [{ id := "s1", title := "Echo", lyrics := "la", sections := [],
                 arrangement := some [⟨"verse", 0, 2, []⟩], previousArrangement := none,
                 versions := [], categories := [], featuredArtists := [],
                 createdAt := "c", updatedAt := "u" }] "s1" [⟨"chorus", 0, 2, []⟩] "t1" "v1").1
            "s1" "t2").1, .noPrevious) :=
  c3_arrangement_undo_roundtrip _ "s1" _ [⟨"verse", 0, 2, []⟩] [⟨"chorus", 0, 2, []⟩]
    "t1" "v1" "t2" "t3" (by rfl) (by rfl)

/-- C4: a successful arrangement save through saveSongArrangement and a
lyrics/sections save through the editor save path each append exactly
one new version: the versions list grows by exactly one, every
previously existing version is unchanged at its index, and the entry
appended by an arrangement save captures the current lyrics, the
current sections and the newly saved arrangement. -/
theorem c4_version_append_only (songs : List Song) (id : String) (S : Song)
    (arrangement : List ArrangementEntry) (lyrics : String) (sections : List Section)
    (now vid : String)
    (hfind : songs.find? (fun s => s.id == id) = some S) :
    (∃ S1, (saveSongArrangement songs id arrangement now vid).1.find?
        (fun s => s.id == id) = some S1
      ∧ S1.versions.length = S.versions.length + 1
      ∧ (∀ i, i < S.versions.length → S1.versions[i]? = S.versions[i]?)
      ∧ S1.versions.getLast? = some
          { id := vid, timestamp := now, lyrics := S.lyrics,
            sections := S.sections, arrangement := some arrangement })
    ∧ ((handleSaveExisting S lyrics sections now vid).versions.length
        = S.versions.length + 1
      ∧ (∀ i, i < S.versions.length →
          (handleSaveExisting S lyrics sections now vid).versions[i]? = S.versions[i]?)
      ∧ (handleSaveExisting S lyrics sections now vid).versions.getLast? = some
          { id := vid, timestamp := now, lyrics := lyrics,
            sections := sections, arrangement := none }) := by
  have hSid : S.id = id := by
    have := List.find?_some hfind
    simpa using this
  constructor
  · set S1 : Song :=
      { S with
        previousArrangement := S.arrangement
        arrangement := some arrangement
        updatedAt := now
        versions := S.versions ++
          [{ id := vid, timestamp := now, lyrics := S.lyrics,
             sections := S.sections, arrangement := some arrangement }] } with hS1
    have hsave : saveSongArrangement songs id arrangement now vid
        = (songs.map (fun s => if s.id == id then S1 else s), .ok) := by
      rw [saveSongArrangement, hfind]
    refine ⟨S1, ?_, by simp [hS1], ?_, by simp [hS1, List.getLast?_concat]⟩
    · rw [hsave]
      exact find?_map_update songs id S1 (by simp [hS1, hSid]) (by rw [hfind]; rfl)
    · intro i hi
      simp only [hS1]
      exact List.getElem?_append_left hi
  · refine ⟨by simp [handleSaveExisting], ?_, by simp [handleSaveExisting, List.getLast?_concat]⟩
    intro i hi
    simp only [handleSaveExisting]
    exact List.getElem?_append_left hi

/-- Closed instance for C4 on a one-song store holding one prior
version: both save paths grow the versions list from one to two and the
appended entry is the expected snapshot. -/
theorem c4_version_append_only_witness :
    (∃ S1, (saveSongArrangement [sampleSong] "s1" [⟨"chorus", 0, 2, []⟩] "t1" "v1").1.find?
        (fun s => s.id == "s1") = some S1
      ∧ S1.versions.length = 2
      ∧ S1.versions.getLast? = some
          { id := "v1", timestamp := "t1", lyrics := "la",
            sections := [], arrangement := some [⟨"chorus", 0, 2, []⟩] })
    ∧ (handleSaveExisting sampleSong "na" [] "t1" "v1").versions.length = 2 := by
  obtain ⟨⟨S1, h1, h2, _, h4⟩, hlen, _, _⟩ :=
    c4_version_append_only [sampleSong] "s1" sampleSong [⟨"chorus", 0, 2, []⟩]
      "na" [] "t1" "v1" (by rfl)
  exact ⟨⟨S1, h1, h2, h4⟩, hlen⟩

/-- C9: deleting song A out of the store [A, B] yields the store [B] and
hands back the removed record A, and the undo action re-adds A by
appending at the end, yielding the store order [B, A]. -/
theorem c9_delete_undo (A B : Song) (hAB : A.id ≠ B.id) :
    handleDeleteSong [A, B] A.id = ([B], some A)
    ∧ handleUndoDelete [B] (some A) = [B, A] := by
  have hBA : (B.id != A.id) = true := by
    simp only [bne_iff_ne, ne_eq]
    exact fun h => hAB h.symm
  constructor
  · rw [handleDeleteSong, List.find?_cons_of_pos _ (by simp)]
    simp only [removeSong, List.filter_cons, hBA]
    simp
  · rfl

/-- Closed instance for C9 with two concrete songs. -/
theorem c9_delete_undo_witness :
    handleDeleteSong
      [{ id := "a", title := "A", lyrics := "", sections := [], arrangement := none,
         previousArrangement := none, versions := [], categories := [],
         featuredArtists := [], createdAt := "", updatedAt := "" },
       { id := "b", title := "B", lyrics := "", sections := [], arrangement := none,
         previousArrangement := none, versions := [], categories := [],
         featuredArtists := [], createdAt := "", updatedAt := "" }] "a"
      = ([{ id := "b", title := "B", lyrics := "", sections := [], arrangement := none,
            previousArrangement := none, versions := [], categories := [],
            featuredArtists := [], createdAt := "", updatedAt := "" }],
         some { id := "a", title := "A", lyrics := "", sections := [], arrangement := none,
                previousArrangement := none, versions := [], categories := [],
                featuredArtists := [], createdAt := "", updatedAt := "" })
    ∧ handleUndoDelete
        [{ id := "b", title := "B", lyrics := "", sections := [], arrangement := none,
           previousArrangement := none, versions := [], categories := [],
           featuredArtists := [], createdAt := "", updatedAt := "" }]
        (some { id := "a", title := "A", lyrics := "", sections := [], arrangement := none,
                previousArrangement := none, versions := [], categories := [],
                featuredArtists := [], createdAt := "", updatedAt := "" })
      = [{ id := "b", title := "B", lyrics := "", sections := [], arrangement := none,
           previousArrangement := none, versions := [], categories := [],
           featuredArtists := [], createdAt := "", updatedAt := "" },
         { id := "a", title := "A", lyrics := "", sections := [], arrangement := none,
           previousArrangement := none, versions := [], categories := [],
           featuredArtists := [], createdAt := "", updatedAt := "" }] :=
  c9_delete_undo _ _ (by decide)

/-- C10: every id-targeted store mutation preserves, value for value and
in order, the songs whose id differs from the target, and when the
target id matches no song, saveSongArrangement and
restorePreviousArrangement leave the whole collection unchanged and
report not-found. -/
theorem c10_frame (songs : List Song) (u : Song) (rid targetId : String)
    (arr : List ArrangementEntry) (t v : String) :
    ((updateSong songs u).filter (fun s => s.id != u.id)
      = songs.filter (fun s => s.id != u.id))
    ∧ ((saveSongArrangement songs targetId arr t v).1.filter (fun s => s.id != targetId)
      = songs.filter (fun s => s.id != targetId))
    ∧ ((restorePreviousArrangement songs targetId t).1.filter (fun s => s.id != targetId)
      = songs.filter (fun s => s.id != targetId))
    ∧ ((removeSong songs rid).filter (fun s => s.id != rid)
      = songs.filter (fun s => s.id != rid))
    ∧ ((∀ s ∈ songs, s.id ≠ targetId) →
      saveSongArrangement songs targetId arr t v = (songs, .notFound))
    ∧ ((∀ s ∈ songs, s.id ≠ targetId) →
      restorePreviousArrangement songs targetId t = (songs, .notFound)) := by
  refine ⟨?_, ?_, ?_, ?_, ?_, ?_⟩
  · exact filter_ne_map_update songs u.id u rfl
  · cases hf : songs.find? (fun s => s.id == targetId) with
    | none => rw [saveSongArrangement, hf]
    | some S =>
      have hSid : S.id = targetId := by
        have := List.find?_some hf
        simpa using this
      rw [saveSongArrangement, hf]
      exact filter_ne_map_update songs targetId _ (by simp [hSid])
  · cases hf : songs.find? (fun s => s.id == targetId) with
    | none => rw [restorePreviousArrangement, hf]
    | some S =>
      have hSid : S.id = targetId := by
        have := List.find?_some hf
        simpa using this
      cases hp : S.previousArrangement with
      | none => simp only [restorePreviousArrangement, hf, hp]
      | some prev =>
        simp only [restorePreviousArrangement, hf, hp]
        exact filter_ne_map_update songs targetId _ (by simp [hSid])
  · rw [removeSong, List.filter_filter]
    exact List.filter_congr (fun s _ => by simp)
  · intro h
    have hn : songs.find? (fun s => s.id == targetId) = none :=
      List.find?_eq_none.mpr (fun x hx => by simpa using h x hx)
    rw [saveSongArrangement, hn]
  · intro h
    have hn : songs.find? (fun s => s.id == targetId) = none :=
      List.find?_eq_none.mpr (fun x hx => by simpa using h x hx)
    rw [restorePreviousArrangement, hn]

/-- Closed instance for C10 on a one-song store, including the
missing-id cases with the not-found hypotheses discharged. -/
theorem c10_frame_witness :
    ((updateSong
        [{ id := "a", title := "A", lyrics := "", sections := [], arrangement := none,
           previousArrangement := none, versions := [], categories := [],
           featuredArtists := [], createdAt := "", updatedAt := "" }]
        { id := "zz", title := "Z", lyrics := "", sections := [], arrangement := none,
          previousArrangement := none, versions := [], categories := [],
          featuredArtists := [], createdAt := "", updatedAt := "" }).filter
        (fun s => s.id != "zz")
      = ([{ id := "a", title := "A", lyrics := "", sections := [], arrangement := none,
            previousArrangement := none, versions := [], categories := [],
            featuredArtists := [], createdAt := "", updatedAt := "" }] : List Song).filter
        (fun s => s.id != "zz"))
    ∧ saveSongArrangement
        [{ id := "a", title := "A", lyrics := "", sections := [], arrangement := none,
           previousArrangement := none, versions := [], categories := [],
           featuredArtists := [], createdAt := "", updatedAt := "" }] "zz" [] "t" "v"
      = ([{ id := "a", title := "A", lyrics := "", sections := [], arrangement := none,
            previousArrangement := none, versions := [], categories := [],
            featuredArtists := [], createdAt := "", updatedAt := "" }], .notFound)
    ∧ restorePreviousArrangement
        [{ id := "a", title := "A", lyrics := "", sections := [], arrangement := none,
           previousArrangement := none, versions := [], categories := [],
           featuredArtists := [], createdAt := "", updatedAt := "" }] "zz" "t"
      = ([{ id := "a", title := "A", lyrics := "", sections := [], arrangement := none,
            previousArrangement := none, versions := [], categories := [],
            featuredArtists := [], createdAt := "", updatedAt := "" }], .notFound) := by
  have h := c10_frame
    [{ id := "a", title := "A", lyrics := "", sections := [], arrangement := none,
       previousArrangement := none, versions := [], categories := [],
       featuredArtists := [], createdAt := "", updatedAt := "" }]
    { id := "zz", title := "Z", lyrics := "", sections := [], arrangement := none,
      previousArrangement := none, versions := [], categories := [],
      featuredArtists := [], createdAt := "", updatedAt := "" }
    "a" "zz" [] "t" "v"
  exact ⟨h.1, h.2.2.2.2.1 (by decide), h.2.2.2.2.2 (by decide)⟩

/-- C5 fails as stated: removeRange filters out every range matching the
target triple, so on a list holding two structurally identical ranges it
removes both and the result length is 0, not length - 1. -/
theorem c5_counterexample :
    removeSectionTarget [⟨0, 4, "verse", []⟩, ⟨0, 4, "verse", []⟩] ⟨0, 4, "verse", []⟩ = []
    ∧ (removeSectionTarget [⟨0, 4, "verse", []⟩, ⟨0, 4, "verse", []⟩]
        ⟨0, 4, "verse", []⟩).length
      ≠ ([⟨0, 4, "verse", []⟩, ⟨0, 4, "verse", []⟩] : List Section).length - 1 := by
  exact ⟨rfl, by decide⟩

/-- C5 amended: removeRange removes every range matching the target on
the (start, end, type) triple; in particular, when exactly one range
matches, the result has length len - 1, is a sublist of the input (so
the order of the surviving ranges is preserved), keeps every
non-matching range, and retains no matching range. -/
theorem c5_remove_by_triple (sections : List Section) (target : Section)
    (hone : sections.countP (fun s => sectionMatches s target) = 1) :
    (removeSectionTarget sections target).length = sections.length - 1
    ∧ (removeSectionTarget sections target).Sublist sections
    ∧ (∀ s ∈ sections, sectionMatches s target = false →
        s ∈ removeSectionTarget sections target)
    ∧ (∀ s ∈ removeSectionTarget sections target, sectionMatches s target = false) := by
  refine ⟨?_, List.filter_sublist _, ?_, ?_⟩
  · have hsplit := List.length_eq_countP_add_countP
      (p := fun s => sectionMatches s target) (l := sections)
    have hfun : (fun a => decide ¬(sectionMatches a target = true))
        = (fun s => !(sectionMatches s target)) := by
      funext a
      cases h : sectionMatches a target <;> simp [h]
    rw [hfun] at hsplit
    have hlen : (removeSectionTarget sections target).length
        = sections.countP (fun s => !(sectionMatches s target)) := by
      unfold removeSectionTarget
      exact (List.countP_eq_length_filter _ _).symm
    rw [hlen]
    omega
  · intro s hs hfalse
    apply List.mem_filter.mpr
    exact ⟨hs, by simp [hfalse]⟩
  · intro s hs
    have := (List.mem_filter.mp hs).2
    simpa using this

/-- Closed instance for C5 amended: removing the single match from a
two-range list leaves one range. -/
theorem c5_remove_by_triple_witness :
    (removeSectionTarget [⟨0, 4, "verse", []⟩, ⟨5, 9, "chorus", []⟩]
      ⟨0, 4, "verse", []⟩).length
      = ([⟨0, 4, "verse", []⟩, ⟨5, 9, "chorus", []⟩] : List Section).length - 1 :=
  (c5_remove_by_triple [⟨0, 4, "verse", []⟩, ⟨5, 9, "chorus", []⟩]
    ⟨0, 4, "verse", []⟩ (by decide)).1

lemma buildEntryList_length (lyrics now : String) (l : List ArrangementEntry) :
    ∀ i, (buildEntryList lyrics now i l).length = l.length := by
  induction l with
  | nil => intro i; rfl
  | cons e rest ih => intro i; simp [buildEntryList, ih]

lemma buildEntryList_getElem? (lyrics now : String) (l : List ArrangementEntry) :
    ∀ i j, (buildEntryList lyrics now i l)[j]?
      = l[j]?.map (fun e => arrangedFromEntry lyrics now (i + j) e) := by
  induction l with
  | nil => intro i j; simp [buildEntryList]
  | cons e rest ih =>
    intro i j
    cases j with
    | zero => simp [buildEntryList]
    | succ n =>
      simp only [buildEntryList, List.getElem?_cons_succ, ih (i + 1) n,
        Nat.add_succ, Nat.succ_add]

lemma buildSectionList_map_arrangedData (lyrics now now2 : String) (l : List Section) :
    ∀ i, (buildSectionList lyrics now i l).map arrangedData
      = (buildSectionList lyrics now2 i l).map arrangedData := by
  induction l with
  | nil => intro i; rfl
  | cons s rest ih =>
    intro i
    simp only [buildSectionList, List.map_cons, ih (i + 1)]
    rfl

lemma startLE_trans : ∀ (a b c : ArrangedSection),
    (fun a b => decide (a.originalStart ≤ b.originalStart)) a b →
    (fun a b => decide (a.originalStart ≤ b.originalStart)) b c →
    (fun a b => decide (a.originalStart ≤ b.originalStart)) a c := by
  intro a b c hab hbc
  simp only [decide_eq_true_eq] at *
  omega

lemma startLE_total : ∀ (a b : ArrangedSection),
    ((fun a b => decide (a.originalStart ≤ b.originalStart)) a b
      || (fun a b => decide (a.originalStart ≤ b.originalStart)) b a) := by
  intro a b
  simp only [Bool.or_eq_true, decide_eq_true_eq]
  exact Nat.le_total _ _

/-- C6: buildArrangement maps a present non-empty stored arrangement one
to one and in stored order, computing each snippet as
lyrics.substring(start, end); otherwise it derives one ArrangedSection
per tagged section sorted ascending by start with a stable sort, so
that rebuilding an unchanged song yields identical data in identical
order regardless of the clock reading baked into the generated ids. -/
theorem c6_build_arrangement (song : Song) (now now2 : String) :
    (∀ arr, song.arrangement = some arr → arr ≠ [] →
      (buildArrangement song now).length = arr.length
      ∧ ∀ i : Nat, (buildArrangement song now)[i]?.map arrangedData
          = arr[i]?.map (fun e =>
              (sectionTypeOrUnknown e.type, jsSubstring song.lyrics e.start e.«end»,
               e.start, e.«end», ([] : List String))))
    ∧ ((song.arrangement = none ∨ song.arrangement = some []) →
      (buildArrangement song now).Pairwise (fun a b => a.originalStart ≤ b.originalStart)
      ∧ (buildArrangement song now).Perm (buildSectionList song.lyrics now 0 song.sections)
      ∧ (∀ a b, List.Sublist [a, b] (buildSectionList song.lyrics now 0 song.sections) →
          a.originalStart ≤ b.originalStart →
          List.Sublist [a, b] (buildArrangement song now))
      ∧ (buildArrangement song now).map arrangedData
          = (buildArrangement song now2).map arrangedData) := by
  constructor
  · intro arr harr hne
    have hpos : arr.length > 0 := List.length_pos.mpr hne
    have hb : buildArrangement song now = buildEntryList song.lyrics now 0 arr := by
      simp [buildArrangement, harr, hpos]
    refine ⟨by rw [hb]; exact buildEntryList_length song.lyrics now arr 0, ?_⟩
    intro i
    rw [hb, buildEntryList_getElem? song.lyrics now arr 0 i]
    cases h : arr[i]? with
    | none => rfl
    | some e => rfl
  · intro hcase
    have hb : ∀ t, buildArrangement song t = buildFromSections song t := by
      intro t
      rcases hcase with h | h <;> simp [buildArrangement, h]
    by_cases hs : song.sections.length > 0
    · have hbf : ∀ t, buildFromSections song t
          = (buildSectionList song.lyrics t 0 song.sections).mergeSort
              (fun a b => decide (a.originalStart ≤ b.originalStart)) := by
        intro t; simp [buildFromSections, hs]
      refine ⟨?_, ?_, ?_, ?_⟩
      · rw [hb, hbf]
        exact (List.sorted_mergeSort startLE_trans startLE_total _).imp
          (fun h => by simpa using h)
      · rw [hb, hbf]
        exact List.mergeSort_perm _ _
      · intro a b hsub hle
        rw [hb, hbf]
        exact List.pair_sublist_mergeSort startLE_trans startLE_total
          (by simpa using hle) hsub
      · have hmap : ∀ t, ((buildSectionList song.lyrics t 0 song.sections).mergeSort
              (fun a b => decide (a.originalStart ≤ b.originalStart))).map arrangedData
            = ((buildSectionList song.lyrics t 0 song.sections).map arrangedData).mergeSort
              arrangedDataLE := by
          intro t
          exact List.map_mergeSort (fun a _ b _ => rfl)
        rw [hb now, hb now2, hbf now, hbf now2, hmap now, hmap now2,
          buildSectionList_map_arrangedData song.lyrics now now2 song.sections 0]
    · have hnil : song.sections = [] :=
        List.eq_nil_of_length_eq_zero (by omega)
      have hbf : ∀ t, buildFromSections song t = [] := by
        intro t; simp [buildFromSections, hs]
      refine ⟨?_, ?_, ?_, ?_⟩
      · rw [hb, hbf]; exact List.Pairwise.nil
      · rw [hb, hbf, hnil]; rfl
      · intro a b hsub hle
        rw [hnil] at hsub
        simp [buildSectionList] at hsub
      · rw [hb now, hb now2, hbf now, hbf now2]

/-- Closed instance for C6: the stored-arrangement branch yields one
section per entry, and the fallback branch yields a sorted view whose
identity-free data does not depend on the clock reading. -/
theorem c6_build_arrangement_witness :
    (buildArrangement sampleArrangedSong "t").length = 1
    ∧ (buildArrangement sampleSectionsSong "t").Pairwise
        (fun a b => a.originalStart ≤ b.originalStart)
    ∧ (buildArrangement sampleSectionsSong "t").map arrangedData
        = (buildArrangement sampleSectionsSong "u").map arrangedData := by
  refine ⟨?_, ?_, ?_⟩
  · exact ((c6_build_arrangement sampleArrangedSong "t" "t").1 [⟨"chorus", 2, 5, []⟩]
      rfl (by simp)).1
  · exact ((c6_build_arrangement sampleSectionsSong "t" "u").2 (Or.inl rfl)).1
  · exact ((c6_build_arrangement sampleSectionsSong "t" "u").2 (Or.inl rfl)).2.2.2

lemma zip_differs_false (current lastSaved : List ArrangedSection)
    (hpt : ∀ i : Nat, current[i]?.map (fun a => (a.type, a.originalStart, a.originalEnd))
      = lastSaved[i]?.map (fun a => (a.type, a.originalStart, a.originalEnd))) :
    arrangementDiffers current lastSaved = false := by
  induction current generalizing lastSaved with
  | nil => simp [arrangementDiffers]
  | cons c rest ih =>
    cases lastSaved with
    | nil => simp [arrangementDiffers]
    | cons s rest2 =>
      have h0 := hpt 0
      simp at h0
      obtain ⟨ht, hos, hoe⟩ := h0
      have ihh := ih rest2 (fun i => by simpa using hpt (i + 1))
      simp only [arrangementDiffers, List.zip_cons_cons, List.any_cons] at ihh ⊢
      simp [ht, hos, hoe, ihh]

/-- C7 fails as stated: with an empty current arrangement against a
non-empty saved one the lengths differ, so the claimed predicate is
true, but the effect skips the computation and leaves the prior flag,
here false. -/
theorem c7_counterexample :
    specUnsavedChanges [] [⟨"x", "verse", "ab", 0, 2, []⟩] = true
    ∧ hasUnsavedChangesEffect [] [⟨"x", "verse", "ab", 0, 2, []⟩] false = false := by
  constructor
  · rfl
  · simp [hasUnsavedChangesEffect]

/-- C7 amended: when both the current and the last saved arrangement are
non-empty, the effect computes exactly the predicate of the
specification, true iff the lengths differ or some positional pair
differs in type, sourceStart or sourceEnd; and differences confined to
other fields, performer sets included, never make it true.  When either
list is empty the effect leaves the previous flag value unchanged. -/
theorem c7_unsaved_changes (current lastSaved : List ArrangedSection) (prior : Bool)
    (hc : current ≠ []) (hl : lastSaved ≠ []) :
    hasUnsavedChangesEffect current lastSaved prior = specUnsavedChanges current lastSaved
    ∧ (current.length = lastSaved.length →
      (∀ i : Nat, current[i]?.map (fun a => (a.type, a.originalStart, a.originalEnd))
          = lastSaved[i]?.map (fun a => (a.type, a.originalStart, a.originalEnd))) →
      hasUnsavedChangesEffect current lastSaved prior = false) := by
  have hcl : current.length > 0 := List.length_pos.mpr hc
  have hll : lastSaved.length > 0 := List.length_pos.mpr hl
  constructor
  · unfold hasUnsavedChangesEffect specUnsavedChanges
    rw [if_pos ⟨hll, hcl⟩]
    by_cases hlen : lastSaved.length = current.length
    · rw [if_neg (by omega)]
      have hbne : (current.length != lastSaved.length) = false := by simp [hlen]
      rw [hbne, Bool.false_or]
      rfl
    · rw [if_pos (by omega)]
      have hbne : (current.length != lastSaved.length) = true := by
        simp only [bne_iff_ne, ne_eq]
        omega
      rw [hbne, Bool.true_or]
  · intro hleneq hpt
    unfold hasUnsavedChangesEffect
    rw [if_pos ⟨hll, hcl⟩, if_neg (by omega)]
    exact zip_differs_false current lastSaved hpt

/-- Closed instance for C7 amended: two singleton arrangements agreeing
on type and offsets but with different ids, snippets and performer sets
are reported as having no unsaved changes. -/
theorem c7_unsaved_changes_witness :
    hasUnsavedChangesEffect [⟨"x", "verse", "ab", 0, 2, ["A"]⟩]
      [⟨"y", "verse", "cd", 0, 2, []⟩] false = false := by
  refine (c7_unsaved_changes [⟨"x", "verse", "ab", 0, 2, ["A"]⟩]
    [⟨"y", "verse", "cd", 0, 2, []⟩] false (by simp) (by simp)).2 rfl ?_
  intro i
  match i with
  | 0 => rfl
  | n + 1 => simp

/-- C8 fails as stated on empty titles: an empty title matches no
existing song up to case, yet creation is rejected by the required-title
rule, not accepted. -/
theorem c8_counterexample :
    (∀ s ∈ ([] : List Song), jsToLowerCase s.title ≠ jsToLowerCase "")
    ∧ submitNewSong [] "" [] [] "i1" "v1" "t1" = ([], some .emptyTitle) := by
  constructor
  · intro s hs; cases hs
  · rfl

/-- C8 amended: for a non-empty candidate title, creation is rejected
with the duplicate-title validation error and no song is added exactly
when some existing title matches case-insensitively; a non-empty title
with no case-insensitive match is accepted and the new song is appended
to the collection. -/
theorem c8_title_uniqueness (songs : List Song) (title : String)
    (cats artists : List String) (newId versionId now : String)
    (hne : title ≠ "") :
    ((∃ s ∈ songs, jsToLowerCase s.title = jsToLowerCase title) →
      submitNewSong songs title cats artists newId versionId now
        = (songs, some .duplicateTitle))
    ∧ ((∀ s ∈ songs, jsToLowerCase s.title ≠ jsToLowerCase title) →
      ∃ r, submitNewSong songs title cats artists newId versionId now
          = (songs ++ [r], none)
        ∧ r.title = title ∧ r.id = newId) := by
  have hlen : ¬(title.length < 1) := by
    intro h
    have h0 : title.length = 0 := by omega
    exact hne (String.ext (List.length_eq_zero.mp h0))
  constructor
  · rintro ⟨s, hs, heq⟩
    have hany : songs.any (fun s => jsToLowerCase s.title == jsToLowerCase title) = true :=
      List.any_eq_true.mpr ⟨s, hs, by simp [heq]⟩
    simp [submitNewSong, validateNewSongTitle, hlen, hany]
  · intro hall
    have hany : songs.any (fun s => jsToLowerCase s.title == jsToLowerCase title) = false := by
      rw [List.any_eq_false]
      intro s hs
      simpa using hall s hs
    refine ⟨{ id := newId, title := title, lyrics := "", sections := [],
              arrangement := none, previousArrangement := none,
              versions := [{ id := versionId, timestamp := now, lyrics := "",
                             sections := [], arrangement := none }],
              categories := cats, featuredArtists := artists,
              createdAt := now, updatedAt := now }, ?_, rfl, rfl⟩
    simp [submitNewSong, validateNewSongTitle, hlen, hany, addSong]

/-- Closed instance for C8 amended: creating "echo" beside the stored
"Echo" is rejected as a duplicate, creating "Fresh" is appended. -/
theorem c8_title_uniqueness_witness :
    submitNewSong [sampleSong] "echo" [] [] "i1" "v1" "t1"
      = ([sampleSong], some .duplicateTitle)
    ∧ (∃ r, submitNewSong [sampleSong] "Fresh" [] [] "i2" "v2" "t2"
          = ([sampleSong] ++ [r], none)
        ∧ r.title = "Fresh" ∧ r.id = "i2") := by
  constructor
  · exact (c8_title_uniqueness [sampleSong] "echo" [] [] "i1" "v1" "t1"
      (by decide)).1 ⟨sampleSong, by simp, by decide⟩
  · exact (c8_title_uniqueness [sampleSong] "Fresh" [] [] "i2" "v2" "t2"
      (by decide)).2 (by intro s hs; simp at hs; subst hs; decide)

end LyricsApp
